import Mathlib

/-!
Formal model of the multi-phase dense-reward state machine of
`FurnitureSawyerDenseRewardEnv` (file `furniture/env/furniture_sawyer_dense.py`).

The embedding works at the level of the scalar quantities the reward code
consumes: vector norms, cosine similarities and contact booleans collected by
`_collect_values` are provided directly as fields of an observation record
(`Obs`), exactly one field per named quantity the Python code reads.  All
numeric values are exact rationals.  The transcendental `np.exp` used only
inside the dense reward value of the `move_leg_fine` phase is modelled by an
abstract function field `rexp` of the configuration; no theorem below depends
on its values.
-/

namespace FurnitureDense

/-- Phase names, mirroring the string list `self._phases` of the source
(`"move_eef_above_leg"`, ..., `"move_leg_fine"`).  `unknownPhase` stands for
an out-of-range lookup. -/
inductive PhaseName
  | moveEefAboveLeg
  | lowerEefToLeg
  | graspLeg
  | liftLeg
  | alignLeg
  | moveLeg
  | moveLegFine
  | unknownPhase
  deriving DecidableEq

/-- The ordered phase list `self._phases` from `__init__`. -/
def phases : List PhaseName :=
  [PhaseName.moveEefAboveLeg, PhaseName.lowerEefToLeg, PhaseName.graspLeg,
   PhaseName.liftLeg, PhaseName.alignLeg, PhaseName.moveLeg, PhaseName.moveLegFine]

/-- The set `self._grip_open_phases` from `__init__`. -/
def gripOpenPhases : List PhaseName :=
  [PhaseName.moveEefAboveLeg, PhaseName.lowerEefToLeg]

/-- Configuration values copied from `config` in `__init__`, plus the two
episode-level counts (`self._success_num_conn` and `len(self._preassembled)`)
the state machine reads.  `rexp` abstractly models `np.exp`. -/
structure Cfg where
  diffRew : Bool
  phaseBonus : ℚ
  ctrlPenaltyCoef : ℚ
  rotThreshold : ℚ
  eefRotDistCoef : ℚ
  eefUpRotDistCoef : ℚ
  eefPosDistCoef : ℚ
  lowerEefPosDistCoef : ℚ
  liftDistCoef : ℚ
  graspDistCoef : ℚ
  gripperPenaltyCoef : ℚ
  alignPosDistCoef : ℚ
  alignRotDistCoef : ℚ
  alignPosThreshold : ℚ
  alignRotThreshold : ℚ
  movePosDistCoef : ℚ
  moveRotDistCoef : ℚ
  movePosThreshold : ℚ
  moveRotThreshold : ℚ
  moveFineRotDistCoef : ℚ
  moveFinePosDistCoef : ℚ
  touchCoef : ℚ
  alignedBonusCoef : ℚ
  moveOtherPartPenaltyCoef : ℚ
  numConn : ℕ
  numPreassembled : ℕ
  rexp : ℚ → ℚ

/-- The per-step action, reduced to the three quantities the reward code
reads: the Euclidean norm of `action[:-2]` (for `_ctrl_penalty`), the gripper
control `ac[-2]` and the connect-intent control `ac[-1]`. -/
structure Act where
  ctrlNorm : ℚ
  grip : ℚ
  connect : ℚ

/-- One step's sensor snapshot: the scalar quantities assembled by
`_collect_values`, plus the scalar distances the individual reward functions
measure themselves (end-effector/grasp-point distances, lift distances, the
distance to the recorded `_align_leg_pos`, and the stable-grip cosines), and
the backend booleans `self._connected` and `_is_aligned`. -/
structure Obs where
  left : Bool
  right : Bool
  movePosDist : ℚ
  moveAbovePosDist : ℚ
  moveAngDist : ℚ
  moveForwardAngDist : ℚ
  projTable : ℚ
  projLeg : ℚ
  tableDisplacement : ℚ
  eefAboveLegXYDist : ℚ
  eefAboveLegZDist : ℚ
  eefLegXYDist : ℚ
  eefLegZDist : ℚ
  liftLegXYDist : ℚ
  liftLegZDist : ℚ
  legLifted : Bool
  alignPosDist : ℚ
  eefUpGraspDist : ℚ
  eefForwardGraspDist : ℚ
  isAligned : Bool
  connected : Bool

/-- `leg_touched = int(left and right)` from `_collect_values`. -/
def legTouched (o : Obs) : Bool := o.left && o.right

/-- The mutable per-subtask reward state of the environment object:
`self._phase_i`, `self._subtask_step`, the one-shot flags `self._leg_touched`
and `self._leg_lift`, the streak counter `self._leg_fine_aligned`, and every
`self._prev_*` potential baseline. -/
structure RewState where
  phaseI : ℕ
  subtaskStep : ℕ
  legTouchedFlag : Bool
  legLiftFlag : Bool
  legFineAligned : ℕ
  prevEefAboveLegDist : ℚ
  prevGraspDist : ℚ
  prevLiftLegZDist : ℚ
  prevLiftLegXYDist : ℚ
  prevEefLegDist : ℚ
  prevMovePosDist : ℚ
  prevMoveAngDist : ℚ
  prevMoveForwardAngDist : ℚ
  prevProjT : ℚ
  prevProjL : ℚ

/-- `_update_reward_variables(subtask_step)`: resets `phase_i`, the one-shot
flags and the fine-aligned counter, and (in differential mode) seeds the four
baselines it initializes, from the measurements at call time.  Fields it does
not assign keep their previous values, as the Python attributes do. -/
def updateRewardVariables (cfg : Cfg) (s : RewState) (o : Obs) : RewState :=
  let s := { s with phaseI := 0, legTouchedFlag := false, legLiftFlag := false,
                    legFineAligned := 0 }
  if cfg.diffRew then
    { s with prevEefAboveLegDist := o.eefAboveLegXYDist + o.eefAboveLegZDist,
             prevGraspDist := -1,
             prevLiftLegZDist := 0.2,
             prevLiftLegXYDist := 0 }
  else s

/-- `_reset_reward_variables`: sets `subtask_step` to the number of
preassembled connections and calls `_update_reward_variables`. -/
def resetRewardVariables (cfg : Cfg) (s : RewState) (o : Obs) : RewState :=
  updateRewardVariables cfg { s with subtaskStep := cfg.numPreassembled } o

/-- `_set_next_subtask`: increments `subtask_step`; returns `true` (all
connections done) when it reaches `_success_num_conn`, otherwise calls
`_update_reward_variables` for the next subtask and returns `false`. -/
def setNextSubtask (cfg : Cfg) (s : RewState) (o : Obs) : Bool × RewState :=
  let s := { s with subtaskStep := s.subtaskStep + 1 }
  if s.subtaskStep = cfg.numConn then (true, s)
  else (false, updateRewardVariables cfg s o)

/-- Result of one phase reward function: the scalar reward contribution, the
phase's boolean success flag, and the updated mutable state. -/
structure PhaseRewResult where
  rew : ℚ
  succ : Bool
  state : RewState

/-- `eef_above_leg_dist = xy_dist + z_dist` from `_move_eef_above_leg_reward`
(and the seeding in `_update_reward_variables`). -/
def eefAboveLegDist (o : Obs) : ℚ := o.eefAboveLegXYDist + o.eefAboveLegZDist

/-- `move_eef_above_leg_succ = int(xy_dist < 0.02 and z_dist < 0.02)`. -/
def moveEefAboveLegSucc (o : Obs) : Bool :=
  decide (o.eefAboveLegXYDist < 0.02) && decide (o.eefAboveLegZDist < 0.02)

/-- `_move_eef_above_leg_reward`. -/
def moveEefAboveLegReward (cfg : Cfg) (s : RewState) (o : Obs) : PhaseRewResult :=
  let d := eefAboveLegDist o
  if cfg.diffRew then
    { rew := (s.prevEefAboveLegDist - d) * cfg.eefPosDistCoef * 10,
      succ := moveEefAboveLegSucc o,
      state := { s with prevEefAboveLegDist := d } }
  else
    { rew := -d * cfg.eefPosDistCoef, succ := moveEefAboveLegSucc o, state := s }

/-- `eef_leg_dist = min(xy_dist + z_dist, 0.3)` from `_lower_eef_to_leg_reward`
(the same expression seeds `_prev_eef_leg_dist` on leaving phase 0). -/
def eefLegDist (o : Obs) : ℚ := min (o.eefLegXYDist + o.eefLegZDist) 0.3

/-- `lower_eef_to_leg_succ = int(xy_dist < 0.02 and z_dist < 0.01)`. -/
def lowerEefToLegSucc (o : Obs) : Bool :=
  decide (o.eefLegXYDist < 0.02) && decide (o.eefLegZDist < 0.01)

/-- `_lower_eef_to_leg_reward`. -/
def lowerEefToLegReward (cfg : Cfg) (s : RewState) (o : Obs) : PhaseRewResult :=
  let d := eefLegDist o
  if cfg.diffRew then
    { rew := (s.prevEefLegDist - d) * cfg.lowerEefPosDistCoef * 10,
      succ := lowerEefToLegSucc o,
      state := { s with prevEefLegDist := d } }
  else
    { rew := -d * cfg.lowerEefPosDistCoef, succ := lowerEefToLegSucc o, state := s }

/-- `_grasp_leg_reward`: the lower-eef reward term, plus the gripper-closing
term on `ac[-2]`, plus a one-time touch bonus on first contact; success is the
contact conjunction. -/
def graspLegReward (cfg : Cfg) (s : RewState) (o : Obs) (a : Act) : PhaseRewResult :=
  let lower := lowerEefToLegReward cfg s o
  let s := lower.state
  let graspLegRew := (a.grip - s.prevGraspDist) * cfg.graspDistCoef
  let s := { s with prevGraspDist := a.grip }
  let touchRew : ℚ := if legTouched o && !s.legTouchedFlag then cfg.touchCoef * 10 else 0
  let s := if legTouched o && !s.legTouchedFlag then { s with legTouchedFlag := true } else s
  { rew := lower.rew + graspLegRew + touchRew, succ := legTouched o, state := s }

/-- `lift_leg_succ = int(xy_dist < 0.03 and z_dist < 0.01)`. -/
def liftLegSucc (o : Obs) : Bool :=
  decide (o.liftLegXYDist < 0.03) && decide (o.liftLegZDist < 0.01)

/-- `_lift_leg_reward`: contact-maintenance term, z and xy lift distance
terms, and a one-time bonus of `phase_bonus / 10` when the leg first rises
above its start height. -/
def liftLegReward (cfg : Cfg) (s : RewState) (o : Obs) : PhaseRewResult :=
  let touchRew : ℚ := if legTouched o then cfg.touchCoef / 5 else 0
  let liftLegRew : ℚ :=
    if cfg.diffRew then
      (s.prevLiftLegZDist - o.liftLegZDist) * cfg.liftDistCoef * 10
        + (s.prevLiftLegXYDist - o.liftLegXYDist) * cfg.liftDistCoef * 10
    else -(o.liftLegZDist + o.liftLegXYDist) * cfg.liftDistCoef
  let s := if cfg.diffRew then
      { s with prevLiftLegZDist := o.liftLegZDist, prevLiftLegXYDist := o.liftLegXYDist }
    else s
  let oneTime := legTouched o && o.legLifted && !s.legLiftFlag
  let liftLegRew := if oneTime then liftLegRew + cfg.phaseBonus / 10 else liftLegRew
  let s := if oneTime then { s with legLiftFlag := true } else s
  { rew := liftLegRew + touchRew, succ := liftLegSucc o, state := s }

/-- `align_leg_succ`: position under `align_pos_threshold`, both cosines above
`align_rot_threshold`, and contact. -/
def alignLegSucc (cfg : Cfg) (o : Obs) : Bool :=
  decide (o.alignPosDist < cfg.alignPosThreshold)
    && decide (o.moveAngDist > cfg.alignRotThreshold)
    && decide (o.moveForwardAngDist > cfg.alignRotThreshold)
    && legTouched o

/-- `_align_leg_reward`. -/
def alignLegReward (cfg : Cfg) (s : RewState) (o : Obs) : PhaseRewResult :=
  let posRew : ℚ :=
    if cfg.diffRew then (s.prevMovePosDist - o.alignPosDist) * cfg.alignPosDistCoef * 10
    else -o.alignPosDist * cfg.alignPosDistCoef
  let s := if cfg.diffRew then { s with prevMovePosDist := o.alignPosDist } else s
  let angRew : ℚ :=
    if cfg.diffRew then (o.moveAngDist - s.prevMoveAngDist) * cfg.alignRotDistCoef * 10
    else (o.moveAngDist - 1) * cfg.alignRotDistCoef
  let s := if cfg.diffRew then { s with prevMoveAngDist := o.moveAngDist } else s
  let forwardAngRew : ℚ :=
    if cfg.diffRew then
      (o.moveForwardAngDist - s.prevMoveForwardAngDist) * cfg.alignRotDistCoef * 10
    else (o.moveForwardAngDist - 1) * cfg.alignRotDistCoef
  let s := if cfg.diffRew then { s with prevMoveForwardAngDist := o.moveForwardAngDist } else s
  { rew := posRew + angRew + forwardAngRew, succ := alignLegSucc cfg o, state := s }

/-- `move_leg_succ`: above-site position under `move_pos_threshold`, both
cosines above `move_rot_threshold`, and contact. -/
def moveLegSucc (cfg : Cfg) (o : Obs) : Bool :=
  decide (o.moveAbovePosDist < cfg.movePosThreshold)
    && decide (o.moveAngDist > cfg.moveRotThreshold)
    && decide (o.moveForwardAngDist > cfg.moveRotThreshold)
    && legTouched o

/-- `_move_leg_reward`. -/
def moveLegReward (cfg : Cfg) (s : RewState) (o : Obs) : PhaseRewResult :=
  let posRew : ℚ :=
    if cfg.diffRew then (s.prevMovePosDist - o.moveAbovePosDist) * cfg.movePosDistCoef * 10
    else -o.moveAbovePosDist * cfg.movePosDistCoef
  let s := if cfg.diffRew then { s with prevMovePosDist := o.moveAbovePosDist } else s
  let angRew : ℚ :=
    if cfg.diffRew then (o.moveAngDist - s.prevMoveAngDist) * cfg.moveRotDistCoef * 10
    else (o.moveAngDist - 1) * cfg.moveRotDistCoef
  let s := if cfg.diffRew then { s with prevMoveAngDist := o.moveAngDist } else s
  let forwardAngRew : ℚ :=
    if cfg.diffRew then
      (o.moveForwardAngDist - s.prevMoveForwardAngDist) * cfg.moveRotDistCoef * 10
    else (o.moveForwardAngDist - 1) * cfg.moveRotDistCoef
  let s := if cfg.diffRew then { s with prevMoveForwardAngDist := o.moveForwardAngDist } else s
  { rew := posRew + angRew + forwardAngRew, succ := moveLegSucc cfg o, state := s }

/-- `_move_leg_fine_reward`: returns `(0, connect_succ = connected)` once the
connection has occurred; otherwise exponential-shaped potential terms for
position, both cosines and both projection terms, plus the connect-intent
bonus and the `_leg_fine_aligned` increment while `_is_aligned` holds.  The
returned success flag is `connect_succ`. -/
def moveLegFineReward (cfg : Cfg) (s : RewState) (o : Obs) (a : Act) : PhaseRewResult :=
  if o.connected then { rew := 0, succ := true, state := s }
  else
    let fpos := fun x => cfg.rexp (-25 * x)
    let fang := fun x => cfg.rexp (-3 * (1 - x))
    let posRew : ℚ :=
      if cfg.diffRew then
        (fpos o.movePosDist - fpos s.prevMovePosDist) * cfg.moveFinePosDistCoef * 10
      else -o.movePosDist * cfg.moveFinePosDistCoef
    let s := if cfg.diffRew then { s with prevMovePosDist := o.movePosDist } else s
    let angRew : ℚ :=
      if cfg.diffRew then
        (fang o.moveAngDist - fang s.prevMoveAngDist) * cfg.moveFineRotDistCoef * 10
      else (o.moveAngDist - 1) * cfg.moveFineRotDistCoef
    let s := if cfg.diffRew then { s with prevMoveAngDist := o.moveAngDist } else s
    let forwardAngRew : ℚ :=
      if cfg.diffRew then
        (fang o.moveForwardAngDist - fang s.prevMoveForwardAngDist) * cfg.moveFineRotDistCoef * 10
      else (o.moveForwardAngDist - 1) * cfg.moveFineRotDistCoef
    let s := if cfg.diffRew then { s with prevMoveForwardAngDist := o.moveForwardAngDist } else s
    let projTRew : ℚ :=
      if cfg.diffRew then (fang o.projTable - fang s.prevProjT) * cfg.moveFineRotDistCoef * 5
      else (o.projTable - 1) * cfg.moveFineRotDistCoef / 10
    let s := if cfg.diffRew then { s with prevProjT := o.projTable } else s
    let projLRew : ℚ :=
      if cfg.diffRew then (fang o.projLeg - fang s.prevProjL) * cfg.moveFineRotDistCoef * 5
      else (o.projLeg - 1) * cfg.moveFineRotDistCoef / 10
    let s := if cfg.diffRew then { s with prevProjL := o.projLeg } else s
    let rew := posRew + angRew + forwardAngRew + projTRew + projLRew
    let rew := if o.isAligned then rew + (a.connect + 1) * cfg.alignedBonusCoef else rew
    let s := if o.isAligned then { s with legFineAligned := s.legFineAligned + 1 } else s
    { rew := rew, succ := false, state := s }

/-- `stable_grip_succ` from `_stable_grip_reward`. -/
def stableGripSucc (cfg : Cfg) (o : Obs) : Bool :=
  decide (o.eefUpGraspDist > 1 - cfg.rotThreshold)
    && decide (|o.eefForwardGraspDist| > 1 - cfg.rotThreshold)

/-- The reward value of `_stable_grip_reward`: zeroed once `phase_i >= 3`. -/
def stableGripRew (cfg : Cfg) (phaseI : ℕ) (o : Obs) : ℚ :=
  if phaseI < 3 then
    cfg.eefUpRotDistCoef * (o.eefUpGraspDist - 1)
      + (|o.eefForwardGraspDist| - 1) * cfg.eefRotDistCoef
  else 0

/-- Default result of the `self._phases[self._phase_i]` lookup for an
out-of-range index (the Python code never reaches it). -/
def noPhase : PhaseName := PhaseName.unknownPhase

/-- `_gripper_penalty`: zero while the current phase name is in
`_grip_open_phases`, otherwise `(ac[-2] - 1) * gripper_penalty_coef`. -/
def gripperPenalty (cfg : Cfg) (phaseI : ℕ) (a : Act) : ℚ :=
  if phases.getD phaseI noPhase ∈ gripOpenPhases then 0
  else (a.grip - 1) * cfg.gripperPenaltyCoef

/-- `_ctrl_penalty`. -/
def ctrlPenalty (cfg : Cfg) (a : Act) : ℚ := a.ctrlNorm * -cfg.ctrlPenaltyCoef

/-- `_move_other_part_penalty`. -/
def moveOtherPartPenalty (cfg : Cfg) (o : Obs) : ℚ :=
  -cfg.moveOtherPartPenaltyCoef * o.tableDisplacement

/-- The condition of the skip to `move_leg_fine` in `_compute_reward`
("detect early fine alignment without lifting or coarse alignment"). -/
def fineSkipCond (cfg : Cfg) (o : Obs) : Bool :=
  decide (o.movePosDist < cfg.movePosThreshold)
    && decide (o.moveAngDist > cfg.moveRotThreshold)
    && decide (o.moveForwardAngDist > cfg.moveRotThreshold)

/-- The condition of the skip to `move_leg` in `_compute_reward`
("detect early alignment without lifting"). -/
def alignSkipCond (cfg : Cfg) (o : Obs) : Bool :=
  decide (o.moveAngDist > cfg.alignRotThreshold)
    && decide (o.moveForwardAngDist > cfg.alignRotThreshold)

/-- The three phase-skip blocks at the head of `_compute_reward`, applied in
program order: (a) contact plus stable grip while `phase_i < 2` jumps to
`lift_leg` (index 3); (b) `phase_i in [3, 4]` with the fine conditions jumps
to `move_leg_fine` (index 6) and seeds its five baselines; (c) `phase_i == 3`
with the align-rotation conditions jumps to `move_leg` (index 5) and seeds
its three baselines.  `sg` is `stable_grip_succ` for this step. -/
def skipPhase (cfg : Cfg) (s : RewState) (o : Obs) (sg : Bool) : RewState :=
  let s := if legTouched o && sg && decide (s.phaseI < 2) then { s with phaseI := 3 } else s
  let s :=
    if (s.phaseI == 3 || s.phaseI == 4) && fineSkipCond cfg o then
      { s with phaseI := 6,
               prevMovePosDist := o.movePosDist,
               prevMoveAngDist := o.moveAngDist,
               prevMoveForwardAngDist := o.moveForwardAngDist,
               prevProjT := o.projTable,
               prevProjL := o.projLeg }
    else s
  if s.phaseI == 3 && alignSkipCond cfg o then
    { s with phaseI := 5,
             prevMovePosDist := o.moveAbovePosDist,
             prevMoveAngDist := o.moveAngDist,
             prevMoveForwardAngDist := o.moveForwardAngDist }
  else s

/-- Result of the phase dispatch in `_compute_reward`: the phase reward, the
accumulated `phase_bonus`, the `done` and `self._success` flags, and the
mutable state after the branch. -/
structure DispatchResult where
  phaseRew : ℚ
  bonus : ℚ
  done : Bool
  success : Bool
  state : RewState

/-- The `if phase == ... elif ...` dispatch of `_compute_reward`, taken after
the skip blocks (`s.phaseI` is the post-skip phase index).  `sg` is
`stable_grip_succ`. -/
def dispatch (cfg : Cfg) (s : RewState) (o : Obs) (a : Act) (sg : Bool) : DispatchResult :=
  if s.phaseI = 0 then
    let r := moveEefAboveLegReward cfg s o
    if r.succ && sg then
      { phaseRew := r.rew, bonus := cfg.phaseBonus, done := false, success := false,
        state := { r.state with phaseI := r.state.phaseI + 1,
                                prevEefLegDist := eefLegDist o } }
    else { phaseRew := r.rew, bonus := 0, done := false, success := false, state := r.state }
  else if s.phaseI = 1 then
    let r := lowerEefToLegReward cfg s o
    if r.succ && sg then
      { phaseRew := r.rew, bonus := cfg.phaseBonus, done := false, success := false,
        state := { r.state with phaseI := r.state.phaseI + 1 } }
    else { phaseRew := r.rew, bonus := 0, done := false, success := false, state := r.state }
  else if s.phaseI = 2 then
    let r := graspLegReward cfg s o a
    if r.succ && sg then
      { phaseRew := r.rew, bonus := cfg.phaseBonus, done := false, success := false,
        state := { r.state with phaseI := r.state.phaseI + 1 } }
    else { phaseRew := r.rew, bonus := 0, done := false, success := false, state := r.state }
  else if s.phaseI = 3 then
    let r := liftLegReward cfg s o
    if !legTouched o then
      { phaseRew := r.rew, bonus := -cfg.phaseBonus / 2, done := true, success := false,
        state := r.state }
    else if decide (o.tableDisplacement > 0.1) then
      { phaseRew := r.rew, bonus := -cfg.phaseBonus / 2, done := true, success := false,
        state := r.state }
    else if r.succ then
      { phaseRew := r.rew, bonus := cfg.phaseBonus, done := false, success := false,
        state := { r.state with phaseI := r.state.phaseI + 1,
                                prevMovePosDist := 0,
                                prevMoveAngDist := o.moveAngDist,
                                prevMoveForwardAngDist := o.moveForwardAngDist } }
    else { phaseRew := r.rew, bonus := 0, done := false, success := false, state := r.state }
  else if s.phaseI = 4 then
    let r := alignLegReward cfg s o
    if !legTouched o then
      { phaseRew := r.rew, bonus := -cfg.phaseBonus / 2, done := true, success := false,
        state := r.state }
    else if decide (o.tableDisplacement > 0.1) then
      { phaseRew := r.rew, bonus := -cfg.phaseBonus / 2, done := true, success := false,
        state := r.state }
    else if r.succ then
      { phaseRew := r.rew, bonus := cfg.phaseBonus, done := false, success := false,
        state := { r.state with phaseI := r.state.phaseI + 1,
                                prevMovePosDist := o.moveAbovePosDist } }
    else { phaseRew := r.rew, bonus := 0, done := false, success := false, state := r.state }
  else if s.phaseI = 5 then
    let r := moveLegReward cfg s o
    if !legTouched o then
      { phaseRew := r.rew, bonus := -cfg.phaseBonus / 2, done := true, success := false,
        state := r.state }
    else if decide (o.tableDisplacement > 0.1) then
      { phaseRew := r.rew, bonus := -cfg.phaseBonus / 2, done := true, success := false,
        state := r.state }
    else if r.succ then
      { phaseRew := r.rew, bonus := cfg.phaseBonus * 5, done := false, success := false,
        state := { r.state with phaseI := r.state.phaseI + 1,
                                prevMovePosDist := o.movePosDist,
                                prevProjT := o.projTable,
                                prevProjL := o.projLeg } }
    else { phaseRew := r.rew, bonus := 0, done := false, success := false, state := r.state }
  else if s.phaseI = 6 then
    let r := moveLegFineReward cfg s o a
    if decide (o.tableDisplacement > 0.1) then
      { phaseRew := r.rew, bonus := -cfg.phaseBonus / 2, done := true, success := false,
        state := r.state }
    else if r.succ then
      let s2 := { r.state with phaseI := 0 }
      let next := setNextSubtask cfg s2 o
      { phaseRew := r.rew,
        bonus := cfg.phaseBonus * 5 - (r.state.legFineAligned : ℚ) * cfg.alignedBonusCoef,
        done := next.1, success := next.1, state := next.2 }
    else if !legTouched o then
      { phaseRew := r.rew, bonus := -cfg.phaseBonus * 2, done := true, success := false,
        state := r.state }
    else { phaseRew := r.rew, bonus := 0, done := false, success := false, state := r.state }
  else
    { phaseRew := 0, bonus := 0, done := true, success := false, state := s }

/-- The aggregate result of one `_compute_reward` call. -/
structure StepResult where
  reward : ℚ
  done : Bool
  success : Bool
  phaseBonus : ℚ
  reportedPhaseI : ℕ
  state : RewState

/-- One full `_compute_reward` call: stable-grip reward on the pre-skip phase,
the skip blocks, the reported `info["phase_i"]`, the gripper penalty on the
post-skip phase, the phase dispatch, and the reward aggregation. -/
def step (cfg : Cfg) (s0 : RewState) (o : Obs) (a : Act) : StepResult :=
  let sg := stableGripSucc cfg o
  let s1 := skipPhase cfg s0 o sg
  let d := dispatch cfg s1 o a sg
  { reward := ctrlPenalty cfg a + d.phaseRew + stableGripRew cfg s0.phaseI o
      + gripperPenalty cfg s1.phaseI a + d.bonus + moveOtherPartPenalty cfg o,
    done := d.done,
    success := d.success,
    phaseBonus := d.bonus,
    reportedPhaseI := s1.phaseI + phases.length * s0.subtaskStep,
    state := d.state }

/-- One driver step: the environment is stepped only while the episode is not
done; a finished episode absorbs (the external driver resets instead). -/
def runStep (cfg : Cfg) (sd : RewState × Bool) (oa : Obs × Act) : RewState × Bool :=
  if sd.2 then sd
  else ((step cfg sd.1 oa.1 oa.2).state, (step cfg sd.1 oa.1 oa.2).done)

/-- All states visited by a trajectory of inputs, starting from `sd`. -/
def trace (cfg : Cfg) (sd : RewState × Bool) (l : List (Obs × Act)) :
    List (RewState × Bool) :=
  l.scanl (runStep cfg) sd

/-! Basic facts about the per-phase reward functions: which success flag each
one reports, and that none of them touches the phase or subtask counters. -/

@[simp] lemma moveEefAboveLegReward_succ (cfg : Cfg) (s : RewState) (o : Obs) :
    (moveEefAboveLegReward cfg s o).succ = moveEefAboveLegSucc o := by
  rw [moveEefAboveLegReward]; split <;> rfl

@[simp] lemma moveEefAboveLegReward_phaseI (cfg : Cfg) (s : RewState) (o : Obs) :
    (moveEefAboveLegReward cfg s o).state.phaseI = s.phaseI := by
  rw [moveEefAboveLegReward]; split <;> rfl

@[simp] lemma moveEefAboveLegReward_subtask (cfg : Cfg) (s : RewState) (o : Obs) :
    (moveEefAboveLegReward cfg s o).state.subtaskStep = s.subtaskStep := by
  rw [moveEefAboveLegReward]; split <;> rfl

@[simp] lemma lowerEefToLegReward_succ (cfg : Cfg) (s : RewState) (o : Obs) :
    (lowerEefToLegReward cfg s o).succ = lowerEefToLegSucc o := by
  rw [lowerEefToLegReward]; split <;> rfl

@[simp] lemma lowerEefToLegReward_phaseI (cfg : Cfg) (s : RewState) (o : Obs) :
    (lowerEefToLegReward cfg s o).state.phaseI = s.phaseI := by
  rw [lowerEefToLegReward]; split <;> rfl

@[simp] lemma lowerEefToLegReward_subtask (cfg : Cfg) (s : RewState) (o : Obs) :
    (lowerEefToLegReward cfg s o).state.subtaskStep = s.subtaskStep := by
  rw [lowerEefToLegReward]; split <;> rfl

@[simp] lemma graspLegReward_succ (cfg : Cfg) (s : RewState) (o : Obs) (a : Act) :
    (graspLegReward cfg s o a).succ = legTouched o := by
  rw [graspLegReward]

@[simp] lemma graspLegReward_phaseI (cfg : Cfg) (s : RewState) (o : Obs) (a : Act) :
    (graspLegReward cfg s o a).state.phaseI = s.phaseI := by
  rw [graspLegReward] <;> (try split_ifs) <;> simp

@[simp] lemma graspLegReward_subtask (cfg : Cfg) (s : RewState) (o : Obs) (a : Act) :
    (graspLegReward cfg s o a).state.subtaskStep = s.subtaskStep := by
  rw [graspLegReward] <;> (try split_ifs) <;> simp

@[simp] lemma liftLegReward_succ (cfg : Cfg) (s : RewState) (o : Obs) :
    (liftLegReward cfg s o).succ = liftLegSucc o := by
  rw [liftLegReward] <;> (try split_ifs) <;> rfl

@[simp] lemma liftLegReward_phaseI (cfg : Cfg) (s : RewState) (o : Obs) :
    (liftLegReward cfg s o).state.phaseI = s.phaseI := by
  rw [liftLegReward] <;> (try split_ifs) <;> rfl

@[simp] lemma liftLegReward_subtask (cfg : Cfg) (s : RewState) (o : Obs) :
    (liftLegReward cfg s o).state.subtaskStep = s.subtaskStep := by
  rw [liftLegReward] <;> (try split_ifs) <;> rfl

@[simp] lemma alignLegReward_succ (cfg : Cfg) (s : RewState) (o : Obs) :
    (alignLegReward cfg s o).succ = alignLegSucc cfg o := by
  rw [alignLegReward]

@[simp] lemma alignLegReward_phaseI (cfg : Cfg) (s : RewState) (o : Obs) :
    (alignLegReward cfg s o).state.phaseI = s.phaseI := by
  rw [alignLegReward]; split <;> rfl

@[simp] lemma alignLegReward_subtask (cfg : Cfg) (s : RewState) (o : Obs) :
    (alignLegReward cfg s o).state.subtaskStep = s.subtaskStep := by
  rw [alignLegReward]; split <;> rfl

@[simp] lemma moveLegReward_succ (cfg : Cfg) (s : RewState) (o : Obs) :
    (moveLegReward cfg s o).succ = moveLegSucc cfg o := by
  rw [moveLegReward]

@[simp] lemma moveLegReward_phaseI (cfg : Cfg) (s : RewState) (o : Obs) :
    (moveLegReward cfg s o).state.phaseI = s.phaseI := by
  rw [moveLegReward]; split <;> rfl

@[simp] lemma moveLegReward_subtask (cfg : Cfg) (s : RewState) (o : Obs) :
    (moveLegReward cfg s o).state.subtaskStep = s.subtaskStep := by
  rw [moveLegReward]; split <;> rfl

@[simp] lemma moveLegFineReward_succ (cfg : Cfg) (s : RewState) (o : Obs) (a : Act) :
    (moveLegFineReward cfg s o a).succ = o.connected := by
  rw [moveLegFineReward] <;> split_ifs <;> simp_all

@[simp] lemma moveLegFineReward_phaseI (cfg : Cfg) (s : RewState) (o : Obs) (a : Act) :
    (moveLegFineReward cfg s o a).state.phaseI = s.phaseI := by
  rw [moveLegFineReward] <;> (try split_ifs) <;> rfl

@[simp] lemma moveLegFineReward_subtask (cfg : Cfg) (s : RewState) (o : Obs) (a : Act) :
    (moveLegFineReward cfg s o a).state.subtaskStep = s.subtaskStep := by
  rw [moveLegFineReward] <;> (try split_ifs) <;> rfl

/-- The fine-aligned counter after `_move_leg_fine_reward`: unchanged when the
connection already occurred or when not aligned, incremented when aligned. -/
@[simp] lemma moveLegFineReward_fineAligned (cfg : Cfg) (s : RewState) (o : Obs) (a : Act) :
    (moveLegFineReward cfg s o a).state.legFineAligned =
      (if o.connected then s.legFineAligned
       else if o.isAligned then s.legFineAligned + 1 else s.legFineAligned) := by
  rw [moveLegFineReward] <;> split_ifs <;> simp_all

/-- When the connection has occurred, `_move_leg_fine_reward` leaves the
mutable state untouched. -/
@[simp] lemma moveLegFineReward_connected (cfg : Cfg) (s : RewState) (o : Obs) (a : Act)
    (h : o.connected = true) : (moveLegFineReward cfg s o a).state = s := by
  rw [moveLegFineReward, if_pos h]

/-! Facts about the skip blocks and the subtask bookkeeping. -/

@[simp] lemma skipPhase_subtask (cfg : Cfg) (s : RewState) (o : Obs) (b : Bool) :
    (skipPhase cfg s o b).subtaskStep = s.subtaskStep := by
  rw [skipPhase] <;> split_ifs <;> rfl

@[simp] lemma skipPhase_fineAligned (cfg : Cfg) (s : RewState) (o : Obs) (b : Bool) :
    (skipPhase cfg s o b).legFineAligned = s.legFineAligned := by
  rw [skipPhase] <;> split_ifs <;> rfl

@[simp] lemma skipPhase_legTouchedFlag (cfg : Cfg) (s : RewState) (o : Obs) (b : Bool) :
    (skipPhase cfg s o b).legTouchedFlag = s.legTouchedFlag := by
  rw [skipPhase] <;> split_ifs <;> rfl

@[simp] lemma skipPhase_legLiftFlag (cfg : Cfg) (s : RewState) (o : Obs) (b : Bool) :
    (skipPhase cfg s o b).legLiftFlag = s.legLiftFlag := by
  rw [skipPhase] <;> split_ifs <;> rfl

/-- The skip blocks never decrease the phase index. -/
lemma skipPhase_phaseI_ge (cfg : Cfg) (s : RewState) (o : Obs) (b : Bool) :
    s.phaseI ≤ (skipPhase cfg s o b).phaseI := by
  rw [skipPhase] <;> split_ifs <;> simp_all <;> omega

/-- The skip blocks keep the phase index within the 7-phase range. -/
lemma skipPhase_phaseI_le (cfg : Cfg) (s : RewState) (o : Obs) (b : Bool)
    (h : s.phaseI ≤ 6) : (skipPhase cfg s o b).phaseI ≤ 6 := by
  rw [skipPhase] <;> split_ifs <;> simp_all

@[simp] lemma updateRewardVariables_phaseI (cfg : Cfg) (s : RewState) (o : Obs) :
    (updateRewardVariables cfg s o).phaseI = 0 := by
  rw [updateRewardVariables] <;> split_ifs <;> rfl

@[simp] lemma updateRewardVariables_subtask (cfg : Cfg) (s : RewState) (o : Obs) :
    (updateRewardVariables cfg s o).subtaskStep = s.subtaskStep := by
  rw [updateRewardVariables] <;> split_ifs <;> rfl

/-! Concrete sample values used to instantiate theorems with hypotheses. -/

/-- A sample configuration (absolute reward mode). -/
def sampleCfg : Cfg :=
  { diffRew := false, phaseBonus := 10, ctrlPenaltyCoef := 1, rotThreshold := 1/10,
    eefRotDistCoef := 1, eefUpRotDistCoef := 1, eefPosDistCoef := 1,
    lowerEefPosDistCoef := 1, liftDistCoef := 1, graspDistCoef := 1,
    gripperPenaltyCoef := 1, alignPosDistCoef := 1, alignRotDistCoef := 1,
    alignPosThreshold := 1/10, alignRotThreshold := 9/10, movePosDistCoef := 1,
    moveRotDistCoef := 1, movePosThreshold := 1/10, moveRotThreshold := 9/10,
    moveFineRotDistCoef := 1, moveFinePosDistCoef := 1, touchCoef := 1,
    alignedBonusCoef := 1, moveOtherPartPenaltyCoef := 1, numConn := 2,
    numPreassembled := 0, rexp := fun _ => 0 }

/-- The sample configuration in differential reward mode. -/
def sampleCfgDiff : Cfg := { sampleCfg with diffRew := true }

/-- A neutral sample action (gripper half-way open). -/
def sampleAct : Act := { ctrlNorm := 0, grip := 0, connect := 0 }

/-- A neutral sample observation: no contact, all measurements zero. -/
def sampleObs : Obs :=
  { left := false, right := false, movePosDist := 1, moveAbovePosDist := 1,
    moveAngDist := 0, moveForwardAngDist := 0, projTable := 0, projLeg := 0,
    tableDisplacement := 0, eefAboveLegXYDist := 1, eefAboveLegZDist := 1,
    eefLegXYDist := 1, eefLegZDist := 1, liftLegXYDist := 1, liftLegZDist := 1,
    legLifted := false, alignPosDist := 1, eefUpGraspDist := 0,
    eefForwardGraspDist := 0, isAligned := false, connected := false }

/-- A neutral sample reward state at the start of subtask 0. -/
def sampleState : RewState :=
  { phaseI := 0, subtaskStep := 0, legTouchedFlag := false, legLiftFlag := false,
    legFineAligned := 0, prevEefAboveLegDist := 2, prevGraspDist := -1,
    prevLiftLegZDist := 1/5, prevLiftLegXYDist := 0, prevEefLegDist := 3/10,
    prevMovePosDist := 1, prevMoveAngDist := 0, prevMoveForwardAngDist := 0,
    prevProjT := 0, prevProjL := 0 }

/-! Claim theorems. -/

/-- Claim C8: the gripper penalty is exactly 0 in the gripper-should-be-open
phases (indices 0 and 1) for every action; for every other valid phase it is
`(gripper action - 1) * gripper_penalty_coef`, which is non-positive for
gripper actions in `[-1, 1]` and a non-negative coefficient, and is zero only
at the fully-closed action 1 for a positive coefficient; hence the internal
non-positivity assertion never fails under these preconditions. -/
theorem claim_C8 (cfg : Cfg) (p : ℕ) (a : Act) :
    ((p = 0 ∨ p = 1) → gripperPenalty cfg p a = 0)
    ∧ (p ≤ 6 → ¬(p = 0 ∨ p = 1) →
        gripperPenalty cfg p a = (a.grip - 1) * cfg.gripperPenaltyCoef)
    ∧ (p ≤ 6 → -1 ≤ a.grip → a.grip ≤ 1 → 0 ≤ cfg.gripperPenaltyCoef →
        gripperPenalty cfg p a ≤ 0)
    ∧ (p ≤ 6 → ¬(p = 0 ∨ p = 1) → 0 < cfg.gripperPenaltyCoef →
        (gripperPenalty cfg p a = 0 ↔ a.grip = 1)) := by
  have hopen : ∀ q : ℕ, q ≤ 6 →
      ((phases.getD q noPhase ∈ gripOpenPhases) ↔ (q = 0 ∨ q = 1)) := by
    intro q hq
    interval_cases q <;> simp [phases, gripOpenPhases, noPhase]
  refine ⟨?_, ?_, ?_, ?_⟩
  · rintro (rfl | rfl) <;> simp [gripperPenalty, phases, gripOpenPhases, noPhase]
  · intro hp hno
    rw [gripperPenalty, if_neg]
    exact fun h => hno (((hopen p hp).1 h))
  · intro hp h1 h2 hc
    rw [gripperPenalty]
    split
    · exact le_refl 0
    · have hg : a.grip - 1 ≤ 0 := by linarith
      exact mul_nonpos_of_nonpos_of_nonneg hg hc
  · intro hp hno hc
    rw [gripperPenalty, if_neg (fun h => hno ((hopen p hp).1 h))]
    constructor
    · intro h
      rcases mul_eq_zero.1 h with h' | h'
      · linarith [sub_eq_zero.1 h']
      · exact absurd h' (ne_of_gt hc)
    · intro h
      rw [h]
      ring

/-- Witness for claim C8 at concrete inputs: phase 0 is penalty-free, phase 2
gets the closed-grip penalty, which is non-positive and zero only at grip 1. -/
theorem claim_C8_witness :
    gripperPenalty sampleCfg 0 sampleAct = 0
    ∧ gripperPenalty sampleCfg 2 sampleAct = (sampleAct.grip - 1) * sampleCfg.gripperPenaltyCoef
    ∧ gripperPenalty sampleCfg 2 sampleAct ≤ 0
    ∧ (gripperPenalty sampleCfg 2 sampleAct = 0 ↔ sampleAct.grip = 1) :=
  ⟨(claim_C8 sampleCfg 0 sampleAct).1 (Or.inl rfl),
   (claim_C8 sampleCfg 2 sampleAct).2.1 (by decide) (by decide),
   (claim_C8 sampleCfg 2 sampleAct).2.2.1 (by decide) (by decide) (by decide) (by decide),
   (claim_C8 sampleCfg 2 sampleAct).2.2.2 (by decide) (by decide) (by decide)⟩

/-- Cumulative reward contributed by the `_move_eef_above_leg_reward` distance
term over a trajectory of observations that stays in that phase, threading the
potential baseline exactly as repeated calls do. -/
def cumMoveEefRew (cfg : Cfg) (s : RewState) : List Obs → ℚ
  | [] => 0
  | o :: l =>
    (moveEefAboveLegReward cfg s o).rew
      + cumMoveEefRew cfg (moveEefAboveLegReward cfg s o).state l

/-- Claim C7: in differential mode the distance term telescopes: over any
trajectory the cumulative reward is `(d0 - dn) * coefficient * 10` where `d0`
is the seeded baseline and `dn` the last measured distance, independent of the
intermediate values; in particular, when the distance ends at zero it equals
`coefficient * 10 * d0`, the total distance reduction. -/
theorem claim_C7 (cfg : Cfg) (s : RewState) (l : List Obs) (hd : cfg.diffRew = true) :
    cumMoveEefRew cfg s l =
      (s.prevEefAboveLegDist - (l.map eefAboveLegDist).getLastD s.prevEefAboveLegDist)
        * cfg.eefPosDistCoef * 10
    ∧ ((l.map eefAboveLegDist).getLastD s.prevEefAboveLegDist = 0 →
        cumMoveEefRew cfg s l = s.prevEefAboveLegDist * cfg.eefPosDistCoef * 10) := by
  have main : ∀ (t : List Obs) (s : RewState),
      cumMoveEefRew cfg s t =
        (s.prevEefAboveLegDist - (t.map eefAboveLegDist).getLastD s.prevEefAboveLegDist)
          * cfg.eefPosDistCoef * 10 := by
    intro t
    induction t with
    | nil => intro s; simp [cumMoveEefRew]
    | cons o t ih =>
      intro s
      simp only [cumMoveEefRew, List.map_cons, List.getLastD_cons,
        moveEefAboveLegReward, hd, if_true]
      rw [ih]
      ring
  refine ⟨main l s, fun h => ?_⟩
  rw [main l s, h]
  ring

/-- Witness for claim C7: a concrete three-step monotone trajectory ending at
distance zero accumulates the full `d0 * coefficient * 10`. -/
theorem claim_C7_witness :
    cumMoveEefRew sampleCfgDiff sampleState
        [{ sampleObs with eefAboveLegXYDist := 1, eefAboveLegZDist := 0 },
         { sampleObs with eefAboveLegXYDist := 1/2, eefAboveLegZDist := 0 },
         { sampleObs with eefAboveLegXYDist := 0, eefAboveLegZDist := 0 }] =
      sampleState.prevEefAboveLegDist * sampleCfgDiff.eefPosDistCoef * 10 :=
  (claim_C7 sampleCfgDiff sampleState
      [{ sampleObs with eefAboveLegXYDist := 1, eefAboveLegZDist := 0 },
       { sampleObs with eefAboveLegXYDist := 1/2, eefAboveLegZDist := 0 },
       { sampleObs with eefAboveLegXYDist := 0, eefAboveLegZDist := 0 }]
      (by decide)).2 (by norm_num [eefAboveLegDist, sampleObs, List.getLastD_cons])

/-- Claim C10: in the lower/grasp phases, the end-effector-to-grasp-point
distance is saturated at 0.3; its baseline seeded on leaving
`move_eef_above_leg` is the same saturated quantity; and in absolute mode the
position term is bounded below by `-0.3 * lower_eef_pos_dist_coef` for a
non-negative coefficient. -/
theorem claim_C10 (cfg : Cfg) (s : RewState) (o : Obs) (a : Act) :
    eefLegDist o ≤ 0.3
    ∧ (cfg.diffRew = false → 0 ≤ cfg.lowerEefPosDistCoef →
        -(0.3 * cfg.lowerEefPosDistCoef) ≤ (lowerEefToLegReward cfg s o).rew)
    ∧ ((skipPhase cfg s o (stableGripSucc cfg o)).phaseI = 0 →
        moveEefAboveLegSucc o = true → stableGripSucc cfg o = true →
        (step cfg s o a).state.prevEefLegDist = eefLegDist o) := by
  have hmin : eefLegDist o ≤ 0.3 := min_le_right _ _
  refine ⟨hmin, fun hd hc => ?_, fun hp hsucc hsg => ?_⟩
  · rw [lowerEefToLegReward]
    simp only [hd, Bool.false_eq_true, if_false]
    have := mul_le_mul_of_nonneg_right hmin hc
    linarith
  · rw [hsg] at hp
    simp only [step, dispatch, hsg, hp, reduceIte, moveEefAboveLegReward_succ, hsucc,
      Bool.and_self, if_true]

/-- Witness for claim C10: concrete inputs where phase 0 succeeds with a
stable grip, so the baseline is seeded with the saturated distance. -/
theorem claim_C10_witness :
    eefLegDist { sampleObs with eefAboveLegXYDist := 1/100, eefAboveLegZDist := 1/100,
                                eefUpGraspDist := 1, eefForwardGraspDist := 1 } ≤ 0.3
    ∧ -(0.3 * sampleCfg.lowerEefPosDistCoef) ≤
        (lowerEefToLegReward sampleCfg sampleState
          { sampleObs with eefAboveLegXYDist := 1/100, eefAboveLegZDist := 1/100,
                           eefUpGraspDist := 1, eefForwardGraspDist := 1 }).rew
    ∧ (step sampleCfg sampleState
          { sampleObs with eefAboveLegXYDist := 1/100, eefAboveLegZDist := 1/100,
                           eefUpGraspDist := 1, eefForwardGraspDist := 1 }
          sampleAct).state.prevEefLegDist =
        eefLegDist { sampleObs with eefAboveLegXYDist := 1/100, eefAboveLegZDist := 1/100,
                                    eefUpGraspDist := 1, eefForwardGraspDist := 1 } := by
  refine ⟨(claim_C10 sampleCfg sampleState _ sampleAct).1,
          (claim_C10 sampleCfg sampleState _ sampleAct).2.1 rfl (by norm_num [sampleCfg]),
          (claim_C10 sampleCfg sampleState _ sampleAct).2.2 ?_ ?_ ?_⟩
  · norm_num [skipPhase, legTouched, stableGripSucc, fineSkipCond, alignSkipCond,
      sampleCfg, sampleState, sampleObs]
  · norm_num [moveEefAboveLegSucc, sampleObs]
  · norm_num [stableGripSucc, sampleCfg, sampleObs]

/-- Claim C6: while the current phase index is 3 or 4 (`lift_leg` or
`align_leg`), if the fine-phase alignment criteria hold (position distance
below the move threshold and both angular cosines above the move rotation
threshold) then the skip blocks move the phase to 6 (`move_leg_fine`) before
dispatch, seeding all five fine-phase baselines from the current
measurements. -/
theorem claim_C6 (cfg : Cfg) (s : RewState) (o : Obs) (b : Bool)
    (hp : s.phaseI = 3 ∨ s.phaseI = 4) (hc : fineSkipCond cfg o = true) :
    (skipPhase cfg s o b).phaseI = 6
    ∧ (skipPhase cfg s o b).prevMovePosDist = o.movePosDist
    ∧ (skipPhase cfg s o b).prevMoveAngDist = o.moveAngDist
    ∧ (skipPhase cfg s o b).prevMoveForwardAngDist = o.moveForwardAngDist
    ∧ (skipPhase cfg s o b).prevProjT = o.projTable
    ∧ (skipPhase cfg s o b).prevProjL = o.projLeg := by
  rcases hp with hp | hp <;> simp [skipPhase, hp, hc]

/-- Witness for claim C6: a concrete aligned observation in phase 3 skips to
phase 6 and re-seeds the baselines. -/
theorem claim_C6_witness :
    (skipPhase sampleCfg { sampleState with phaseI := 3 }
        { sampleObs with movePosDist := 1/20, moveAngDist := 1, moveForwardAngDist := 1 }
        false).phaseI = 6
    ∧ (skipPhase sampleCfg { sampleState with phaseI := 3 }
        { sampleObs with movePosDist := 1/20, moveAngDist := 1, moveForwardAngDist := 1 }
        false).prevMovePosDist =
      ({ sampleObs with movePosDist := 1/20, moveAngDist := 1,
                        moveForwardAngDist := 1 } : Obs).movePosDist := by
  have h := claim_C6 sampleCfg { sampleState with phaseI := 3 }
    { sampleObs with movePosDist := 1/20, moveAngDist := 1, moveForwardAngDist := 1 }
    false (Or.inl rfl)
    (by norm_num [fineSkipCond, sampleCfg, sampleObs])
  exact ⟨h.1, h.2.1⟩

/-- Claim C1: with the contact conjunction false, dispatching `lift_leg`,
`align_leg` or `move_leg` (post-skip phase index 3, 4 or 5) ends the episode
with a phase bonus of exactly `-phase_bonus / 2`; dispatching `move_leg_fine`
(index 6) with no connection and no table-displacement trigger ends it with
exactly `-phase_bonus * 2`; in all these cases the success flag stays false. -/
theorem claim_C1 (cfg : Cfg) (s : RewState) (o : Obs) (a : Act)
    (ht : legTouched o = false) :
    (((skipPhase cfg s o (stableGripSucc cfg o)).phaseI = 3
        ∨ (skipPhase cfg s o (stableGripSucc cfg o)).phaseI = 4
        ∨ (skipPhase cfg s o (stableGripSucc cfg o)).phaseI = 5) →
      (step cfg s o a).done = true
        ∧ (step cfg s o a).phaseBonus = -cfg.phaseBonus / 2
        ∧ (step cfg s o a).success = false)
    ∧ ((skipPhase cfg s o (stableGripSucc cfg o)).phaseI = 6 →
        o.connected = false → ¬ (o.tableDisplacement > 0.1) →
      (step cfg s o a).done = true
        ∧ (step cfg s o a).phaseBonus = -cfg.phaseBonus * 2
        ∧ (step cfg s o a).success = false) := by
  constructor
  · rintro (hp | hp | hp) <;> simp [step, dispatch, hp, ht]
  · intro hp hc hd
    simp [step, dispatch, hp, hc, hd, ht]

/-- Witness for claim C1: with no contact, a concrete step in phase 3 ends
with `-phase_bonus / 2`, and a concrete step in phase 6 (no connection, no
displacement) ends with `-phase_bonus * 2`. -/
theorem claim_C1_witness :
    (step sampleCfg { sampleState with phaseI := 3 } sampleObs sampleAct).done = true
    ∧ (step sampleCfg { sampleState with phaseI := 3 } sampleObs sampleAct).phaseBonus =
        -sampleCfg.phaseBonus / 2
    ∧ (step sampleCfg { sampleState with phaseI := 6 } sampleObs sampleAct).done = true
    ∧ (step sampleCfg { sampleState with phaseI := 6 } sampleObs sampleAct).phaseBonus =
        -sampleCfg.phaseBonus * 2 := by
  have h3 := (claim_C1 sampleCfg { sampleState with phaseI := 3 } sampleObs sampleAct
    (by norm_num [legTouched, sampleObs])).1
    (Or.inl (by norm_num [skipPhase, legTouched, stableGripSucc, fineSkipCond,
      alignSkipCond, sampleCfg, sampleState, sampleObs]))
  have h6 := (claim_C1 sampleCfg { sampleState with phaseI := 6 } sampleObs sampleAct
    (by norm_num [legTouched, sampleObs])).2
    (by norm_num [skipPhase, legTouched, stableGripSucc, fineSkipCond,
      alignSkipCond, sampleCfg, sampleState, sampleObs])
    (by norm_num [sampleObs])
    (by norm_num [sampleObs])
  exact ⟨h3.1, h3.2.1, h6.1, h6.2.1⟩

/-- Claim C2: on `move_leg_fine` connect success the subtask index is
incremented; if it reaches the required connection count the step returns
`done = true` with the episode success flag set; otherwise the phase index is
reset to 0, the per-subtask reward state is reinitialized by
`updateRewardVariables` (the same routine episode reset uses), and
`done = false` is returned. -/
theorem claim_C2 (cfg : Cfg) (s : RewState) (o : Obs) (a : Act)
    (hp : (skipPhase cfg s o (stableGripSucc cfg o)).phaseI = 6)
    (hc : o.connected = true)
    (hd : ¬ (o.tableDisplacement > 0.1)) :
    (step cfg s o a).state.subtaskStep = s.subtaskStep + 1
    ∧ (s.subtaskStep + 1 = cfg.numConn →
        (step cfg s o a).done = true ∧ (step cfg s o a).success = true)
    ∧ (s.subtaskStep + 1 ≠ cfg.numConn →
        (step cfg s o a).done = false ∧ (step cfg s o a).success = false
          ∧ (step cfg s o a).state.phaseI = 0
          ∧ (step cfg s o a).state =
              updateRewardVariables cfg
                { skipPhase cfg s o (stableGripSucc cfg o) with
                    phaseI := 0, subtaskStep := s.subtaskStep + 1 } o) := by
  by_cases hEq : s.subtaskStep + 1 = cfg.numConn
  · refine ⟨?_, fun _ => ⟨?_, ?_⟩, fun hNe => absurd hEq hNe⟩ <;>
      simp [step, dispatch, setNextSubtask, hp, hc, hd, hEq]
  · refine ⟨?_, fun h => absurd h hEq, fun _ => ⟨?_, ?_, ?_, ?_⟩⟩ <;>
      simp [step, dispatch, setNextSubtask, hp, hc, hd, hEq]

/-- Witness for claim C2: with 2 required connections, a connect on subtask 0
advances to subtask 1 with `done = false` and phase 0; a connect on subtask 1
finishes the episode with success. -/
theorem claim_C2_witness :
    (step sampleCfg { sampleState with phaseI := 6 }
        { sampleObs with connected := true } sampleAct).state.subtaskStep = 1
    ∧ (step sampleCfg { sampleState with phaseI := 6 }
        { sampleObs with connected := true } sampleAct).done = false
    ∧ (step sampleCfg { sampleState with phaseI := 6 }
        { sampleObs with connected := true } sampleAct).state.phaseI = 0
    ∧ (step sampleCfg { sampleState with phaseI := 6, subtaskStep := 1 }
        { sampleObs with connected := true } sampleAct).done = true
    ∧ (step sampleCfg { sampleState with phaseI := 6, subtaskStep := 1 }
        { sampleObs with connected := true } sampleAct).success = true := by
  have h0 := claim_C2 sampleCfg { sampleState with phaseI := 6 }
    { sampleObs with connected := true } sampleAct
    (by norm_num [skipPhase, legTouched, stableGripSucc, fineSkipCond,
      alignSkipCond, sampleCfg, sampleState, sampleObs])
    (by norm_num [sampleObs]) (by norm_num [sampleObs])
  have h1 := claim_C2 sampleCfg { sampleState with phaseI := 6, subtaskStep := 1 }
    { sampleObs with connected := true } sampleAct
    (by norm_num [skipPhase, legTouched, stableGripSucc, fineSkipCond,
      alignSkipCond, sampleCfg, sampleState, sampleObs])
    (by norm_num [sampleObs]) (by norm_num [sampleObs])
  have h0ne := h0.2.2 (by norm_num [sampleCfg, sampleState])
  have h1eq := h1.2.1 (by norm_num [sampleCfg, sampleState])
  exact ⟨h0.1, h0ne.1, h0ne.2.2.1, h1eq.1, h1eq.2⟩

/-- The forward-transition condition of the dispatch, parameterized by the
stable-grip flag value `b`: phase `p`'s success flag, conjoined with `b` for
phases 0-2 and with the negations of the drop/disturbance failure conditions
for phases 3-5. -/
def transCondB (cfg : Cfg) (o : Obs) (b : Bool) : ℕ → Bool
  | 0 => moveEefAboveLegSucc o && b
  | 1 => lowerEefToLegSucc o && b
  | 2 => legTouched o && b
  | 3 => legTouched o && !(decide (o.tableDisplacement > 0.1)) && liftLegSucc o
  | 4 => legTouched o && !(decide (o.tableDisplacement > 0.1)) && alignLegSucc cfg o
  | 5 => legTouched o && !(decide (o.tableDisplacement > 0.1)) && moveLegSucc cfg o
  | _ => false

/-- The amended forward-transition condition (claim C4 as corrected): phase
`i` advances to `i + 1` exactly when its success flag holds, with the
stable-grip flag additionally required for phase indices 0, 1 AND 2 (the
source also gates `grasp_leg` on it), and with the drop/disturbance failure
checks not firing for indices 3-5. -/
def transCond (cfg : Cfg) (o : Obs) : ℕ → Bool :=
  transCondB cfg o (stableGripSucc cfg o)

set_option maxHeartbeats 1000000 in
/-- The dispatch advances from phase `p` to `p + 1` exactly under
`transCondB`. -/
lemma dispatch_trans (cfg : Cfg) (s1 : RewState) (o : Obs) (a : Act) (b : Bool)
    (p : ℕ) (hp5 : p ≤ 5) (hq : s1.phaseI = p) :
    (dispatch cfg s1 o a b).state.phaseI = p + 1 ↔ transCondB cfg o b p = true := by
  interval_cases p <;>
    · simp only [dispatch, hq, reduceIte]
      split_ifs with h1 h2 h3 <;> simp_all [transCondB]

/-- Claim C4 (amended): a forward transition from dispatch phase `p` to
`p + 1` occurs exactly when `transCond` holds, i.e. when phase `p`'s success
flag is true, the stable-grip flag also holds for phases 0-2 (not only 0-1 as
the original claim states), and no drop/disturbance check fires for phases
3-5. -/
theorem claim_C4 (cfg : Cfg) (s : RewState) (o : Obs) (a : Act) (p : ℕ)
    (hp5 : p ≤ 5)
    (hsp : (skipPhase cfg s o (stableGripSucc cfg o)).phaseI = p) :
    (step cfg s o a).state.phaseI = p + 1 ↔ transCond cfg o p = true := by
  have hstep : (step cfg s o a).state =
      (dispatch cfg (skipPhase cfg s o (stableGripSucc cfg o)) o a
        (stableGripSucc cfg o)).state := rfl
  rw [hstep, transCond]
  exact dispatch_trans cfg _ o a (stableGripSucc cfg o) p hp5 hsp

/-- Counterexample to claim C4 as stated: in phase 2 (`grasp_leg`) the
success flag (contact) is true and the stable-grip flag is false; the
original claim requires stable grip only for phases 0-1, hence predicts a
transition here, but the code does not advance the phase and awards no
bonus. -/
theorem claim_C4_counterexample :
    legTouched { sampleObs with left := true, right := true } = true
    ∧ stableGripSucc sampleCfg { sampleObs with left := true, right := true } = false
    ∧ (skipPhase sampleCfg { sampleState with phaseI := 2 }
        { sampleObs with left := true, right := true }
        (stableGripSucc sampleCfg { sampleObs with left := true, right := true })).phaseI = 2
    ∧ (step sampleCfg { sampleState with phaseI := 2 }
        { sampleObs with left := true, right := true } sampleAct).state.phaseI = 2
    ∧ (step sampleCfg { sampleState with phaseI := 2 }
        { sampleObs with left := true, right := true } sampleAct).phaseBonus = 0 := by
  refine ⟨by norm_num [legTouched, sampleObs], ?_, ?_, ?_, ?_⟩
  · norm_num [stableGripSucc, sampleCfg, sampleObs]
  · norm_num [skipPhase, legTouched, stableGripSucc, fineSkipCond, alignSkipCond,
      sampleCfg, sampleState, sampleObs]
  · norm_num [step, dispatch, skipPhase, legTouched, stableGripSucc, fineSkipCond,
      alignSkipCond, graspLegReward, lowerEefToLegReward, lowerEefToLegSucc,
      eefLegDist, sampleCfg, sampleState, sampleObs, sampleAct]
  · norm_num [step, dispatch, skipPhase, legTouched, stableGripSucc, fineSkipCond,
      alignSkipCond, graspLegReward, lowerEefToLegReward, lowerEefToLegSucc,
      eefLegDist, sampleCfg, sampleState, sampleObs, sampleAct]

/-- Witness for claim C4: a concrete lift-phase step where the transition
criterion is exercised. -/
theorem claim_C4_witness :
    (step sampleCfg { sampleState with phaseI := 3 }
        { sampleObs with left := true, right := true, liftLegXYDist := 1/100,
                         liftLegZDist := 1/200 } sampleAct).state.phaseI = 3 + 1
      ↔ transCond sampleCfg
          { sampleObs with left := true, right := true, liftLegXYDist := 1/100,
                           liftLegZDist := 1/200 } 3 = true :=
  claim_C4 sampleCfg { sampleState with phaseI := 3 }
    { sampleObs with left := true, right := true, liftLegXYDist := 1/100,
                     liftLegZDist := 1/200 } sampleAct 3 (by norm_num)
    (by norm_num [skipPhase, legTouched, stableGripSucc, fineSkipCond, alignSkipCond,
      sampleCfg, sampleState, sampleObs])

/-- Claim C5 (amended): contact with a stable grip while the phase index is
below 2 jumps the state machine to `lift_leg` (index 3) before dispatch, and
-- provided the later skip checks (the fine-alignment conditions and the
align-rotation conditions), which would cascade the skip onward in the same
step, do not hold -- the reported phase index is 3 plus the subtask offset,
and the skip itself awards no bonus: the phase bonus of the step is exactly
the `lift_leg` branch's outcome, so no bonus for the skipped phases 1-2 is
awarded. -/
theorem claim_C5 (cfg : Cfg) (s : RewState) (o : Obs) (a : Act)
    (ht : legTouched o = true) (hsg : stableGripSucc cfg o = true)
    (hp : s.phaseI < 2)
    (hf : fineSkipCond cfg o = false) (hal : alignSkipCond cfg o = false) :
    (skipPhase cfg s o (stableGripSucc cfg o)).phaseI = 3
    ∧ (step cfg s o a).reportedPhaseI = 3 + 7 * s.subtaskStep
    ∧ (step cfg s o a).phaseBonus =
        (if o.tableDisplacement > 0.1 then -cfg.phaseBonus / 2
         else if liftLegSucc o then cfg.phaseBonus else 0) := by
  have hskip : skipPhase cfg s o (stableGripSucc cfg o) = { s with phaseI := 3 } := by
    simp [skipPhase, ht, hsg, hp, hf, hal]
  refine ⟨by rw [hskip], by simp [step, hskip, phases], ?_⟩
  simp only [step, dispatch, hskip]
  simp only [reduceIte, ht, Bool.not_true, Bool.false_eq_true, if_false]
  split_ifs <;> simp_all

/-- Observation with contact, stable grip and the fine-alignment conditions
all holding (drives the cascading skip of claim C5's counterexample). -/
def c5CascadeObs : Obs :=
  { sampleObs with left := true, right := true, eefUpGraspDist := 1,
                   eefForwardGraspDist := 1, movePosDist := 1/20, moveAngDist := 1,
                   moveForwardAngDist := 1 }

/-- Observation with contact and stable grip but no alignment conditions. -/
def c5PlainObs : Obs :=
  { sampleObs with left := true, right := true, eefUpGraspDist := 1,
                   eefForwardGraspDist := 1 }

/-- Counterexample to claim C5 as stated: with contact, stable grip and phase
index 0, if additionally the fine-alignment conditions already hold, the skip
cascades in the same step past `lift_leg` to `move_leg_fine`, and the
reported phase index is 6, not the index of `lift_leg`. -/
theorem claim_C5_counterexample :
    legTouched c5CascadeObs = true
    ∧ stableGripSucc sampleCfg c5CascadeObs = true
    ∧ sampleState.phaseI = 0
    ∧ (step sampleCfg sampleState c5CascadeObs sampleAct).reportedPhaseI = 6 := by
  refine ⟨by norm_num [legTouched, c5CascadeObs, sampleObs], ?_, rfl, ?_⟩
  · norm_num [stableGripSucc, sampleCfg, c5CascadeObs, sampleObs]
  · norm_num [step, skipPhase, legTouched, stableGripSucc, fineSkipCond, alignSkipCond,
      phases, sampleCfg, sampleState, c5CascadeObs, sampleObs]

/-- Witness for claim C5: concrete contact and stable grip in phase 0, with
no further skip conditions holding, reports `lift_leg`. -/
theorem claim_C5_witness :
    (skipPhase sampleCfg sampleState c5PlainObs
        (stableGripSucc sampleCfg c5PlainObs)).phaseI = 3
    ∧ (step sampleCfg sampleState c5PlainObs sampleAct).reportedPhaseI =
        3 + 7 * sampleState.subtaskStep
    ∧ (step sampleCfg sampleState c5PlainObs sampleAct).phaseBonus =
        (if c5PlainObs.tableDisplacement > 0.1 then -sampleCfg.phaseBonus / 2
         else if liftLegSucc c5PlainObs then sampleCfg.phaseBonus else 0) :=
  claim_C5 sampleCfg sampleState c5PlainObs sampleAct
    (by norm_num [legTouched, c5PlainObs, sampleObs])
    (by norm_num [stableGripSucc, sampleCfg, c5PlainObs, sampleObs])
    (by norm_num [sampleState])
    (by norm_num [fineSkipCond, sampleCfg, c5PlainObs, sampleObs])
    (by norm_num [alignSkipCond, sampleCfg, c5PlainObs, sampleObs])

set_option maxHeartbeats 4000000 in
/-- Bonus accounting at the dispatch level: transitions out of phases 0-4 add
one `phase_bonus`, the phase-5 transition adds five, and the connect event
adds five minus the aligned-frame deduction. -/
lemma dispatch_bonus (cfg : Cfg) (s1 : RewState) (o : Obs) (a : Act) (b : Bool)
    (p : ℕ) (hq : s1.phaseI = p) :
    (p ≤ 4 → (dispatch cfg s1 o a b).state.phaseI = p + 1 →
        (dispatch cfg s1 o a b).bonus = cfg.phaseBonus)
    ∧ (p = 5 → (dispatch cfg s1 o a b).state.phaseI = 6 →
        (dispatch cfg s1 o a b).bonus = cfg.phaseBonus * 5)
    ∧ (p = 6 → o.connected = true → ¬ (o.tableDisplacement > 0.1) →
        (dispatch cfg s1 o a b).bonus =
          cfg.phaseBonus * 5 - (s1.legFineAligned : ℚ) * cfg.alignedBonusCoef) := by
  refine ⟨fun hp4 htr => ?_, fun hp5 htr => ?_, fun hp6 hc hd => ?_⟩
  · interval_cases p <;>
      · simp only [dispatch, hq, reduceIte] at htr ⊢
        split_ifs at htr ⊢ <;> simp_all
  · subst hp5
    simp only [dispatch, hq, reduceIte] at htr ⊢
    split_ifs at htr ⊢ <;> simp_all
  · subst hp6
    simp [dispatch, hq, hc, hd]

/-- Claim C9 (amended): every successful forward transition out of dispatch
phases 0-4 awards the per-phase bonus once; the `move_leg` to `move_leg_fine`
transition awards five times the bonus; the terminal connect event awards five
times the bonus minus `aligned_bonus_coef` times the value of the
fine-aligned counter, which counts the total (cumulative, not necessarily
consecutive) number of frames spent fully aligned during the subtask. -/
theorem claim_C9 (cfg : Cfg) (s : RewState) (o : Obs) (a : Act) (p : ℕ)
    (hsp : (skipPhase cfg s o (stableGripSucc cfg o)).phaseI = p) :
    (p ≤ 4 → (step cfg s o a).state.phaseI = p + 1 →
        (step cfg s o a).phaseBonus = cfg.phaseBonus)
    ∧ (p = 5 → (step cfg s o a).state.phaseI = 6 →
        (step cfg s o a).phaseBonus = cfg.phaseBonus * 5)
    ∧ (p = 6 → o.connected = true → ¬ (o.tableDisplacement > 0.1) →
        (step cfg s o a).phaseBonus =
          cfg.phaseBonus * 5 - (s.legFineAligned : ℚ) * cfg.alignedBonusCoef) := by
  have hstep : (step cfg s o a).state =
      (dispatch cfg (skipPhase cfg s o (stableGripSucc cfg o)) o a
        (stableGripSucc cfg o)).state := rfl
  have hbonus : (step cfg s o a).phaseBonus =
      (dispatch cfg (skipPhase cfg s o (stableGripSucc cfg o)) o a
        (stableGripSucc cfg o)).bonus := rfl
  have h := dispatch_bonus cfg (skipPhase cfg s o (stableGripSucc cfg o)) o a
    (stableGripSucc cfg o) p hsp
  rw [skipPhase_fineAligned] at h
  exact ⟨fun hp4 htr => hbonus ▸ h.1 hp4 (hstep ▸ htr),
         fun hp5 htr => hbonus ▸ h.2.1 hp5 (hstep ▸ htr),
         fun hp6 hc hd => hbonus ▸ h.2.2 hp6 hc hd⟩

/-- Observation for the C9 trajectory: contact held, fully aligned, not yet
connected. -/
def c9AlignedObs : Obs := { sampleObs with left := true, right := true, isAligned := true }

/-- Observation for the C9 trajectory: contact held, not aligned. -/
def c9UnalignedObs : Obs := { sampleObs with left := true, right := true }

/-- Observation for the C9 trajectory: the physical connect event occurred. -/
def c9ConnectObs : Obs := { sampleObs with left := true, right := true, connected := true }

/-- Three fine-phase frames: aligned, unaligned, aligned again. -/
def c9Run : List (Obs × Act) :=
  [(c9AlignedObs, sampleAct), (c9UnalignedObs, sampleAct), (c9AlignedObs, sampleAct)]

/-- The state after running the three C9 frames from phase 6. -/
def c9State3 : RewState × Bool :=
  List.foldl (runStep sampleCfg) ({ sampleState with phaseI := 6 }, false) c9Run

set_option maxHeartbeats 1600000 in
/-- Counterexample to claim C9 as stated: after an aligned frame, an
unaligned frame, and another aligned frame in `move_leg_fine`, only one
consecutive aligned frame precedes the connect event, yet the connect bonus
subtracts the coefficient twice: the counter is cumulative, never reset by
the unaligned frame. -/
theorem claim_C9_counterexample :
    c9State3.2 = false
    ∧ c9State3.1.legFineAligned = 2
    ∧ c9UnalignedObs.isAligned = false
    ∧ (step sampleCfg c9State3.1 c9ConnectObs sampleAct).phaseBonus =
        sampleCfg.phaseBonus * 5 - 2 * sampleCfg.alignedBonusCoef
    ∧ (step sampleCfg c9State3.1 c9ConnectObs sampleAct).phaseBonus ≠
        sampleCfg.phaseBonus * 5 - 1 * sampleCfg.alignedBonusCoef := by
  have h3 : c9State3 =
      ({ sampleState with phaseI := 6, legFineAligned := 2, prevGraspDist := -1 }, false) := by
    norm_num [c9State3, c9Run, runStep, step, dispatch, skipPhase, legTouched,
      stableGripSucc, fineSkipCond, alignSkipCond, moveLegFineReward, setNextSubtask,
      sampleCfg, sampleState, c9AlignedObs, c9UnalignedObs, sampleObs, sampleAct]
  refine ⟨by rw [h3], by rw [h3], rfl, ?_, ?_⟩ <;>
    rw [h3] <;>
    norm_num [step, dispatch, skipPhase, legTouched, stableGripSucc, fineSkipCond,
      alignSkipCond, moveLegFineReward, setNextSubtask, sampleCfg, sampleState,
      c9ConnectObs, sampleObs, sampleAct]

/-- Witness for claim C9: a concrete connect event in phase 6 with a
fine-aligned count of 2 awards `5 * bonus - 2 * coefficient`. -/
theorem claim_C9_witness :
    (step sampleCfg { sampleState with phaseI := 6, legFineAligned := 2 }
        c9ConnectObs sampleAct).phaseBonus =
      sampleCfg.phaseBonus * 5 -
        (({ sampleState with phaseI := 6, legFineAligned := 2 } : RewState).legFineAligned : ℚ)
          * sampleCfg.alignedBonusCoef :=
  (claim_C9 sampleCfg { sampleState with phaseI := 6, legFineAligned := 2 }
      c9ConnectObs sampleAct 6
      (by norm_num [skipPhase, legTouched, stableGripSucc, fineSkipCond, alignSkipCond,
        sampleCfg, sampleState, c9ConnectObs, sampleObs])).2.2 rfl
    (by norm_num [c9ConnectObs, sampleObs])
    (by norm_num [c9ConnectObs, sampleObs])

@[simp] lemma setNextSubtask_snd_subtask (cfg : Cfg) (s : RewState) (o : Obs) :
    (setNextSubtask cfg s o).2.subtaskStep = s.subtaskStep + 1 := by
  rw [setNextSubtask] <;> split_ifs <;> simp

@[simp] lemma setNextSubtask_fst (cfg : Cfg) (s : RewState) (o : Obs) :
    (setNextSubtask cfg s o).1 = decide (s.subtaskStep + 1 = cfg.numConn) := by
  rw [setNextSubtask] <;> split_ifs <;> simp_all

@[simp] lemma setNextSubtask_snd_phaseI (cfg : Cfg) (s : RewState) (o : Obs)
    (h : s.phaseI = 0) : (setNextSubtask cfg s o).2.phaseI = 0 := by
  rw [setNextSubtask] <;> split_ifs <;> simp_all

set_option maxHeartbeats 2000000 in
/-- Dispatch-level monotonicity: the subtask index never decreases; with the
subtask unchanged the phase index never decreases; the phase index drops only
to 0 and only together with a subtask advance. -/
lemma dispatch_mono (cfg : Cfg) (s1 : RewState) (o : Obs) (a : Act) (b : Bool) :
    s1.subtaskStep ≤ (dispatch cfg s1 o a b).state.subtaskStep
    ∧ ((dispatch cfg s1 o a b).state.subtaskStep = s1.subtaskStep →
        s1.phaseI ≤ (dispatch cfg s1 o a b).state.phaseI)
    ∧ ((dispatch cfg s1 o a b).state.phaseI < s1.phaseI →
        (dispatch cfg s1 o a b).state.phaseI = 0
          ∧ (dispatch cfg s1 o a b).state.subtaskStep = s1.subtaskStep + 1) := by
  rcases Nat.lt_or_ge s1.phaseI 7 with hlt7 | hge7
  · obtain ⟨p, hp, hpb⟩ : ∃ p, s1.phaseI = p ∧ p < 7 := ⟨s1.phaseI, rfl, hlt7⟩
    interval_cases p <;>
      · rw [dispatch, hp]
        repeat rw [if_neg (by decide)]
        rw [if_pos rfl]
        simp only []
        split_ifs <;> refine ⟨?_, fun hs => ?_, fun hp2 => ?_⟩ <;> simp_all <;> omega
  · simp only [dispatch]
    rw [if_neg (by omega), if_neg (by omega), if_neg (by omega), if_neg (by omega),
      if_neg (by omega), if_neg (by omega), if_neg (by omega)]
    exact ⟨le_refl _, fun _ => le_refl _, fun hp2 => absurd hp2 (lt_irrefl _)⟩

set_option maxHeartbeats 2000000 in
/-- Dispatch-level invariant: from a valid phase and a subtask index strictly
below the connection count, the dispatch keeps the phase in range and the
subtask bounded; while the episode is not done the subtask index stays
strictly below the count. -/
lemma dispatch_inv (cfg : Cfg) (s1 : RewState) (o : Obs) (a : Act) (b : Bool)
    (h6 : s1.phaseI ≤ 6) (hlt : s1.subtaskStep < cfg.numConn) :
    (dispatch cfg s1 o a b).state.phaseI ≤ 6
    ∧ (dispatch cfg s1 o a b).state.subtaskStep ≤ cfg.numConn
    ∧ ((dispatch cfg s1 o a b).done = false →
        (dispatch cfg s1 o a b).state.subtaskStep < cfg.numConn) := by
  rcases Nat.lt_or_ge s1.phaseI 7 with hlt7 | hge7
  · obtain ⟨p, hp, hpb⟩ : ∃ p, s1.phaseI = p ∧ p < 7 := ⟨s1.phaseI, rfl, hlt7⟩
    interval_cases p <;>
      · rw [dispatch, hp]
        repeat rw [if_neg (by decide)]
        rw [if_pos rfl]
        simp only []
        split_ifs <;> refine ⟨?_, ?_, fun hd => ?_⟩ <;> simp_all <;> omega
  · simp only [dispatch]
    rw [if_neg (by omega), if_neg (by omega), if_neg (by omega), if_neg (by omega),
      if_neg (by omega), if_neg (by omega), if_neg (by omega)]
    exact ⟨h6, le_of_lt hlt, fun _ => hlt⟩

/-- Per-step monotonicity, lifted from the dispatch through the skip blocks. -/
lemma step_mono (cfg : Cfg) (s : RewState) (o : Obs) (a : Act) :
    s.subtaskStep ≤ (step cfg s o a).state.subtaskStep
    ∧ ((step cfg s o a).state.subtaskStep = s.subtaskStep →
        s.phaseI ≤ (step cfg s o a).state.phaseI)
    ∧ ((step cfg s o a).state.phaseI < s.phaseI →
        (step cfg s o a).state.phaseI = 0
          ∧ (step cfg s o a).state.subtaskStep = s.subtaskStep + 1) := by
  have hstep : (step cfg s o a).state =
      (dispatch cfg (skipPhase cfg s o (stableGripSucc cfg o)) o a
        (stableGripSucc cfg o)).state := rfl
  have hge := skipPhase_phaseI_ge cfg s o (stableGripSucc cfg o)
  have hsub := skipPhase_subtask cfg s o (stableGripSucc cfg o)
  have h := dispatch_mono cfg (skipPhase cfg s o (stableGripSucc cfg o)) o a
    (stableGripSucc cfg o)
  rw [hsub] at h
  rw [hstep]
  refine ⟨h.1, fun hs => le_trans hge (h.2.1 hs), fun hp => ?_⟩
  exact h.2.2 (lt_of_lt_of_le hp hge)

/-- Per-step invariant, lifted from the dispatch through the skip blocks. -/
lemma step_inv (cfg : Cfg) (s : RewState) (o : Obs) (a : Act)
    (h6 : s.phaseI ≤ 6) (hlt : s.subtaskStep < cfg.numConn) :
    (step cfg s o a).state.phaseI ≤ 6
    ∧ (step cfg s o a).state.subtaskStep ≤ cfg.numConn
    ∧ ((step cfg s o a).done = false →
        (step cfg s o a).state.subtaskStep < cfg.numConn) := by
  have hstep : (step cfg s o a).state =
      (dispatch cfg (skipPhase cfg s o (stableGripSucc cfg o)) o a
        (stableGripSucc cfg o)).state := rfl
  have hdone : (step cfg s o a).done =
      (dispatch cfg (skipPhase cfg s o (stableGripSucc cfg o)) o a
        (stableGripSucc cfg o)).done := rfl
  have hle := skipPhase_phaseI_le cfg s o (stableGripSucc cfg o) h6
  have hsub := skipPhase_subtask cfg s o (stableGripSucc cfg o)
  have h := dispatch_inv cfg (skipPhase cfg s o (stableGripSucc cfg o)) o a
    (stableGripSucc cfg o) hle (hsub ▸ hlt)
  rw [hstep, hdone]
  exact h

/-- Every element of a `scanl` trace satisfies a predicate preserved by the
step function, starting from a state satisfying it. -/
lemma scanl_all {α β : Type} (f : α → β → α) (P : α → Prop)
    (hP : ∀ x b, P x → P (f x b)) :
    ∀ (l : List β) (x : α), P x → ∀ y ∈ List.scanl f x l, P y := by
  intro l
  induction l with
  | nil =>
    intro x hx y hy
    simp only [List.scanl_nil, List.mem_singleton] at hy
    exact hy ▸ hx
  | cons b t ih =>
    intro x hx y hy
    simp only [List.scanl_cons, List.cons_append, List.nil_append,
      List.mem_cons] at hy
    rcases hy with rfl | hy
    · exact hx
    · exact ih (f x b) (hP x b hx) y hy

/-- A `scanl` trace is chained by any relation that every step realizes. -/
lemma scanl_chain {α β : Type} (f : α → β → α) (R : α → α → Prop)
    (hR : ∀ x b, R x (f x b)) :
    ∀ (l : List β) (x : α), List.Chain' R (List.scanl f x l) := by
  intro l
  induction l with
  | nil => intro x; simp
  | cons b t ih =>
    intro x
    have hcons : ∀ (x' : α) (t' : List β), ∃ r, List.scanl f x' t' = x' :: r := by
      intro x' t'
      cases t' <;> simp [List.scanl_cons]
    obtain ⟨r, hr⟩ := hcons (f x b) t
    simp only [List.scanl_cons, List.cons_append, List.nil_append]
    rw [hr]
    exact List.chain'_cons.2 ⟨hR x b, hr ▸ ih (f x b)⟩

/-- Claim C3: in every state reachable by driver steps from a reset (with at
least one connection left to make), the phase index is a valid index into the
7-phase list (at most 6) and the subtask index never exceeds the connection
count; along the trace the subtask index is monotonically non-decreasing, the
phase index never decreases while the subtask is unchanged, and it drops only
to 0, exactly when the subtask completes. -/
theorem claim_C3 (cfg : Cfg) (sInit : RewState) (oInit : Obs)
    (l : List (Obs × Act)) (h : cfg.numPreassembled < cfg.numConn) :
    (∀ sd ∈ trace cfg (resetRewardVariables cfg sInit oInit, false) l,
        sd.1.phaseI ≤ 6 ∧ sd.1.subtaskStep ≤ cfg.numConn)
    ∧ List.Chain' (fun x y =>
        x.1.subtaskStep ≤ y.1.subtaskStep
        ∧ (y.1.subtaskStep = x.1.subtaskStep → x.1.phaseI ≤ y.1.phaseI)
        ∧ (y.1.phaseI < x.1.phaseI →
            y.1.phaseI = 0 ∧ y.1.subtaskStep = x.1.subtaskStep + 1))
        (trace cfg (resetRewardVariables cfg sInit oInit, false) l) := by
  constructor
  · have hall := scanl_all (runStep cfg)
      (fun sd => sd.1.phaseI ≤ 6 ∧ sd.1.subtaskStep ≤ cfg.numConn
        ∧ (sd.2 = false → sd.1.subtaskStep < cfg.numConn))
      (by
        intro sd oa hsd
        rw [runStep]
        split_ifs with hdone
        · exact hsd
        · have hlt := hsd.2.2 (by simpa using hdone)
          have hinv := step_inv cfg sd.1 oa.1 oa.2 hsd.1 hlt
          exact ⟨hinv.1, hinv.2.1, fun hd => hinv.2.2 hd⟩)
      l (resetRewardVariables cfg sInit oInit, false)
      (by
        refine ⟨by simp [resetRewardVariables], ?_, fun _ => ?_⟩ <;>
          simp [resetRewardVariables] <;> omega)
    exact fun sd hsd => ⟨(hall sd hsd).1, (hall sd hsd).2.1⟩
  · refine scanl_chain (runStep cfg) _ (fun sd oa => ?_) l _
    rw [runStep]
    split_ifs with hdone
    · exact ⟨le_refl _, fun _ => le_refl _, fun hp => absurd hp (lt_irrefl _)⟩
    · exact step_mono cfg sd.1 oa.1 oa.2

/-- Witness for claim C3: the empty trajectory from a reset of the sample
configuration satisfies the invariants and the (singleton) chain. -/
theorem claim_C3_witness :
    (∀ sd ∈ trace sampleCfg (resetRewardVariables sampleCfg sampleState sampleObs, false) [],
        sd.1.phaseI ≤ 6 ∧ sd.1.subtaskStep ≤ sampleCfg.numConn)
    ∧ List.Chain' (fun x y =>
        x.1.subtaskStep ≤ y.1.subtaskStep
        ∧ (y.1.subtaskStep = x.1.subtaskStep → x.1.phaseI ≤ y.1.phaseI)
        ∧ (y.1.phaseI < x.1.phaseI →
            y.1.phaseI = 0 ∧ y.1.subtaskStep = x.1.subtaskStep + 1))
        (trace sampleCfg (resetRewardVariables sampleCfg sampleState sampleObs, false) []) :=
  claim_C3 sampleCfg sampleState sampleObs [] (by norm_num [sampleCfg])

end FurnitureDense
